import Mathlib

/-!
Verification of the Guesstimate-Agent pipeline
(`src/agents/src/guesstimate_agent/agent.py` and the calculator guard in
`src/GuesstimateMCP/src/guesstimatemcp/server.py` /
`src/GuesstimateMCP/src/guesstimatemcp/http_server.py`).

The Python code is shallowly embedded: every regular-expression search of
the source is translated to an explicit scanner with Python `re` semantics
(leftmost match, greedy with backtracking) specialised to the concrete
pattern appearing in the source; `json.loads` is embedded as a
recursive-descent parser of the JSON grammar the Python standard library
implements; Python exceptions are `Except` values; Python `float` results
are modelled as exact rationals (the decimal strings parsed here are taken
at their exact decimal value).  Stage functions thread an explicit
`RunState` record, and the LLM completion service and the HTTP tool
endpoint are universally quantified total functions supplied in an `Env`.
-/

/-! ## Basic text utilities (Python `str` / `re` helpers) -/

/-- Python `\s` / `str.strip` whitespace test (ASCII part). -/
def isWsChar (c : Char) : Bool :=
  c = ' ' || c = '\t' || c = '\n' || c = '\r' || c = '\x0b' || c = '\x0c'

/-- `str.strip()`: drop whitespace from both ends. -/
def pyStrip (cs : List Char) : List Char :=
  ((cs.dropWhile isWsChar).reverse.dropWhile isWsChar).reverse

/-- Python `s.split('\n')` on the character list. -/
def pySplitNl : List Char → List (List Char)
  | [] => [[]]
  | c :: cs =>
    if c = '\n' then [] :: pySplitNl cs
    else
      match pySplitNl cs with
      | [] => [[c]]
      | l :: ls => (c :: l) :: ls

/-- Substring containment, Python `tok in s`. -/
def containsTok (tok : List Char) (cs : List Char) : Bool :=
  match cs with
  | [] => tok.isEmpty
  | _ :: cs' => tok.isPrefixOf cs || containsTok tok cs'

/-- Python `op in s` for a single character. -/
def containsChar (c : Char) (cs : List Char) : Bool := cs.contains c

/-! ## `re.findall(r'[-+]?\d*\.?\d+', content)`
(numeric extraction in `_calculate_expression`, agent.py lines 240-242) -/

/-- Tail of the number pattern, `\d*\.?\d+`, matched greedily at the head of
`cs`; returns the matched characters and the rest.  Backtracking of the
greedy `\d*` only ever succeeds by dropping an absent fractional part, which
is what the second branch implements. -/
def numTail (cs : List Char) : Option (List Char × List Char) :=
  let ds := cs.takeWhile Char.isDigit
  let r1 := cs.dropWhile Char.isDigit
  match r1 with
  | '.' :: r2 =>
    let ds2 := r2.takeWhile Char.isDigit
    if ds2.isEmpty then
      if ds.isEmpty then none else some (ds, r1)
    else
      some (ds ++ '.' :: ds2, r2.dropWhile Char.isDigit)
  | _ => if ds.isEmpty then none else some (ds, r1)

/-- The full pattern `[-+]?\d*\.?\d+` at the head of `cs`.  If a sign is
present but no number follows, the signless alternative also fails, since
the sign character itself is neither a digit nor a dot. -/
def numAt (cs : List Char) : Option (List Char × List Char) :=
  match cs with
  | c :: r =>
    if c = '+' || c = '-' then
      match numTail r with
      | some (m, rest) => some (c :: m, rest)
      | none => none
    else numTail cs
  | [] => none



/-- Fuel-driven scan for `re.findall(r'[-+]?\d*\.?\d+', ·)`: at each
position emit the leftmost match and continue after it.  Each step consumes
at least one character (`numAt_rest_lt`), so fuel `cs.length` is exact. -/
def findNumbersF : Nat → List Char → List (List Char)
  | 0, _ => []
  | _, [] => []
  | fuel + 1, c :: cs' =>
    match numAt (c :: cs') with
    | some (m, rest) => m :: findNumbersF fuel rest
    | none => findNumbersF fuel cs'

/-- `re.findall(r'[-+]?\d*\.?\d+', ·)`. -/
def findNumbers (cs : List Char) : List (List Char) :=
  findNumbersF cs.length cs

/-! ## `_extract_expression` (agent.py lines 253-277) -/

/-- Character class of the first pattern,
`[\d\+\-\*/\(\)\.\s%sqrt]` (digits, the listed symbols, whitespace and the
four letters `s q r t`). -/
def eqClassChar (c : Char) : Bool :=
  c.isDigit || isWsChar c ||
  c = '+' || c = '-' || c = '*' || c = '/' || c = '(' || c = ')' ||
  c = '.' || c = '%' || c = 's' || c = 'q' || c = 'r' || c = 't'

/-- `re.findall(r'([\d\+\-\*/\(\)\.\s%sqrt]+)\s*=', text)`.
Because `\s` is contained in the character class, the greedy group always
keeps the whole run and the pattern matches exactly when a maximal run of
class characters is immediately followed by `=`; the captured group is that
maximal run.  When the head is a class character, the maximal run through it
is the head followed by the run of the tail, which is how the recursion is
phrased here. -/
def eqMatchesF : Nat → List Char → List (List Char)
  | 0, _ => []
  | _, [] => []
  | fuel + 1, c :: cs' =>
    if eqClassChar c then
      match cs'.dropWhile eqClassChar with
      | '=' :: r2 => (c :: cs'.takeWhile eqClassChar) :: eqMatchesF fuel r2
      | r => eqMatchesF fuel r
    else
      eqMatchesF fuel cs'

/-- The `=`-pattern matches of a line; each step consumes at least one
character, so fuel `cs.length` is exact. -/
def eqMatches (cs : List Char) : List (List Char) :=
  eqMatchesF cs.length cs

/-- Selection loop over the `=`-pattern matches (agent.py lines 260-263):
strip, then accept when longer than one character and containing `+`, `*`,
`/` or the substring `sqrt` (note: `-` does not qualify). -/
def selectEqMatch : List (List Char) → Option (List Char)
  | [] => none
  | m :: ms =>
    if (pyStrip m).length > 1 &&
        (containsChar '+' (pyStrip m) || containsChar '*' (pyStrip m) ||
         containsChar '/' (pyStrip m) || containsTok ['s','q','r','t'] (pyStrip m)) then
      some (pyStrip m)
    else selectEqMatch ms

/-- Optional fragment `(?:\.\d+)?`, greedy: consumed only when a dot is
directly followed by at least one digit. -/
def fracOpt (cs : List Char) : List Char × List Char :=
  match cs with
  | '.' :: r =>
    if (r.takeWhile Char.isDigit).isEmpty then ([], cs)
    else ('.' :: r.takeWhile Char.isDigit, r.dropWhile Char.isDigit)
  | _ => ([], cs)

/-- The pattern `\d+(?:\.\d+)?\s*[\+\-\*/]\s*\d+(?:\.\d+)?` matched at the
head of `cs`.  Backtracking into the greedy digit runs never succeeds (a
given-back digit can satisfy neither `\s*` nor the operator class), so the
maximal-run reading below is exact. -/
def numOpNumAt (cs : List Char) : Option (List Char) :=
  if (cs.takeWhile Char.isDigit).isEmpty then none
  else
    match fracOpt (cs.dropWhile Char.isDigit) with
    | (f1, r2) =>
      match (r2.dropWhile isWsChar) with
      | op :: r4 =>
        if op = '+' || op = '-' || op = '*' || op = '/' then
          if ((r4.dropWhile isWsChar).takeWhile Char.isDigit).isEmpty then none
          else
            match fracOpt ((r4.dropWhile isWsChar).dropWhile Char.isDigit) with
            | (f2, _) =>
              some (cs.takeWhile Char.isDigit ++ f1 ++ r2.takeWhile isWsChar ++
                    op :: ((r4.takeWhile isWsChar) ++
                      (r4.dropWhile isWsChar).takeWhile Char.isDigit ++ f2))
        else none
      | [] => none

/-- First match of `re.findall(r'\d+(?:\.\d+)?\s*[\+\-\*/]\s*\d+(?:\.\d+)?', ·)`
(`number_matches[0]`): leftmost position at which the pattern matches. -/
def findNumOpNum : List Char → Option (List Char)
  | [] => none
  | c :: cs =>
    match numOpNumAt (c :: cs) with
    | some m => some m
    | none => findNumOpNum cs

/-- The pattern `sqrt\(\d+(?:\.\d+)?\)` matched at the head of `cs`. -/
def sqrtAt (cs : List Char) : Option (List Char) :=
  if ['s','q','r','t','('].isPrefixOf cs then
    if ((cs.drop 5).takeWhile Char.isDigit).isEmpty then none
    else
      match fracOpt ((cs.drop 5).dropWhile Char.isDigit) with
      | (f, r3) =>
        match r3 with
        | ')' :: _ =>
          some (['s','q','r','t','('] ++ (cs.drop 5).takeWhile Char.isDigit ++ f ++ [')'])
        | _ => none
  else none

/-- First match of `re.findall(r'sqrt\(\d+(?:\.\d+)?\)', ·)` (`sqrt_matches[0]`). -/
def findSqrtExpr : List Char → Option (List Char)
  | [] => none
  | c :: cs =>
    match sqrtAt (c :: cs) with
    | some m => some m
    | none => findSqrtExpr cs

/-- `GuesstimateSolver._extract_expression` (agent.py lines 253-277): three
pattern families tried in order; `None` is modelled as `none`. -/
def extractExpression (text : String) : Option String :=
  match selectEqMatch (eqMatches text.data) with
  | some e => some (String.mk e)
  | none =>
    match findNumOpNum text.data with
    | some m => some (String.mk (pyStrip m))
    | none =>
      match findSqrtExpr text.data with
      | some m => some (String.mk m)
      | none => none

/-! ## `float(...)` on a matched decimal string -/

/-- Digit-string value. -/
def digitsToNat (cs : List Char) : Nat :=
  cs.foldl (fun n c => 10 * n + (c.toNat - '0'.toNat)) 0

/-- Value of an unsigned decimal string `\d*\.?\d+` as an exact rational
(Python's `float` rounds to binary; the claims only inspect which substring
is chosen, so the exact decimal value is used here). -/
def parseDecUnsigned (cs : List Char) : ℚ :=
  match cs.dropWhile Char.isDigit with
  | '.' :: fr =>
    (digitsToNat (cs.takeWhile Char.isDigit) : ℚ) +
      (digitsToNat (fr.takeWhile Char.isDigit) : ℚ) /
        ((10 : ℚ) ^ (fr.takeWhile Char.isDigit).length)
  | _ => (digitsToNat (cs.takeWhile Char.isDigit) : ℚ)

/-- `float(s)` for a string matching `[-+]?\d*\.?\d+`. -/
def parseDecQ : List Char → ℚ
  | '-' :: r => - parseDecUnsigned r
  | '+' :: r => parseDecUnsigned r
  | r => parseDecUnsigned r
/-! ## JSON values and `json.loads`
(used by `_analyze_problem`, agent.py lines 105-113).

The parser below follows the grammar accepted by Python's `json.loads`:
optional `' \t\n\r'` whitespace, objects, arrays, double-quoted strings with
the standard escapes, `true`/`false`/`null`, and numbers
`-?(0|[1-9]\d*)(\.\d+)?([eE][+-]?\d+)?`, requiring the whole input to be
consumed.  Numbers are taken at their exact decimal value (Python floats
round to binary); the non-standard literals `NaN`/`Infinity` that Python
additionally accepts have no rational value and are not modelled — no claim
touches them. -/

inductive JsonVal where
  | null
  | bool (b : Bool)
  | num (q : ℚ)
  | str (s : String)
  | arr (xs : List JsonVal)
  | obj (kvs : List (String × JsonVal))
deriving Repr, BEq

/-- Python `dict` insertion: overwriting an existing key keeps its original
position, a new key is appended. -/
def dictInsert {α : Type} (k : String) (v : α) : List (String × α) → List (String × α)
  | [] => [(k, v)]
  | (k', v') :: t => if k' = k then (k, v) :: t else (k', v') :: dictInsert k v t

/-- Python `dict(pairs)` / repeated insertion in iteration order. -/
def buildDict {α : Type} (l : List (String × α)) : List (String × α) :=
  l.foldl (fun d kv => dictInsert kv.1 kv.2 d) []

/-- Dictionary lookup (keys are unique after `dictInsert`). -/
def jlookup {α : Type} (kvs : List (String × α)) (k : String) : Option α :=
  match kvs with
  | [] => none
  | (k', v) :: t => if k' = k then some v else jlookup t k

/-- The whitespace skipped by Python's json scanner (`' \t\n\r'`). -/
def skipJWs (cs : List Char) : List Char :=
  cs.dropWhile (fun c => c = ' ' || c = '\t' || c = '\n' || c = '\r')

def hexVal (c : Char) : Option Nat :=
  if c.isDigit then some (c.toNat - '0'.toNat)
  else if 'a' ≤ c ∧ c ≤ 'f' then some (c.toNat - 'a'.toNat + 10)
  else if 'A' ≤ c ∧ c ≤ 'F' then some (c.toNat - 'A'.toNat + 10)
  else none

def escChar (c : Char) : Option Char :=
  if c = '"' then some '"'
  else if c = '\\' then some '\\'
  else if c = '/' then some '/'
  else if c = 'b' then some '\x08'
  else if c = 'f' then some '\x0c'
  else if c = 'n' then some '\n'
  else if c = 'r' then some '\r'
  else if c = 't' then some '\t'
  else none

/-- JSON string body after the opening quote: content and rest after the
closing quote.  Raw control characters are rejected (strict mode); `\uXXXX`
maps the code unit directly (surrogate pairing is not modelled — no claim
involves non-BMP text). -/
def parseJStr : List Char → Option (List Char × List Char)
  | [] => none
  | '"' :: r => some ([], r)
  | '\\' :: e :: r =>
    if e = 'u' then
      match r with
      | a :: b :: c :: d :: r' => do
        let ha ← hexVal a
        let hb ← hexVal b
        let hc ← hexVal c
        let hd ← hexVal d
        let (s, rest) ← parseJStr r'
        pure (Char.ofNat (((ha * 16 + hb) * 16 + hc) * 16 + hd) :: s, rest)
      | _ => none
    else do
      let ec ← escChar e
      let (s, rest) ← parseJStr r
      pure (ec :: s, rest)
  | c :: r =>
    if c.toNat < 0x20 then none
    else do
      let (s, rest) ← parseJStr r
      pure (c :: s, rest)
termination_by cs => cs.length
decreasing_by all_goals simp_arith [List.length_cons]

/-- JSON integer part `0|[1-9]\d*`. -/
def jsonIntPart : List Char → Option (Nat × List Char)
  | '0' :: r => some (0, r)
  | c :: r =>
    if c.isDigit then
      some (digitsToNat ((c :: r).takeWhile Char.isDigit), (c :: r).dropWhile Char.isDigit)
    else none
  | [] => none

/-- JSON fraction part `(\.\d+)?`; consumed only when well formed. -/
def jsonFracPart (cs : List Char) : ℚ × List Char :=
  match cs with
  | '.' :: r =>
    if (r.takeWhile Char.isDigit).isEmpty then (0, cs)
    else ((digitsToNat (r.takeWhile Char.isDigit) : ℚ) /
            (10 : ℚ) ^ (r.takeWhile Char.isDigit).length,
          r.dropWhile Char.isDigit)
  | _ => (0, cs)

/-- JSON exponent part `([eE][+-]?\d+)?`; consumed only when well formed. -/
def jsonExpPart (cs : List Char) : ℤ × List Char :=
  match cs with
  | c :: r =>
    if c = 'e' || c = 'E' then
      match r with
      | '+' :: r2 =>
        if (r2.takeWhile Char.isDigit).isEmpty then (0, cs)
        else ((digitsToNat (r2.takeWhile Char.isDigit) : ℤ), r2.dropWhile Char.isDigit)
      | '-' :: r2 =>
        if (r2.takeWhile Char.isDigit).isEmpty then (0, cs)
        else (-(digitsToNat (r2.takeWhile Char.isDigit) : ℤ), r2.dropWhile Char.isDigit)
      | r2 =>
        if (r2.takeWhile Char.isDigit).isEmpty then (0, cs)
        else ((digitsToNat (r2.takeWhile Char.isDigit) : ℤ), r2.dropWhile Char.isDigit)
    else (0, cs)
  | [] => (0, cs)

/-- Unsigned JSON number at the head of the input. -/
def jsonNumTail (cs : List Char) : Option (ℚ × List Char) := do
  let (i, r1) ← jsonIntPart cs
  let (f, r2) := jsonFracPart r1
  let (e, r3) := jsonExpPart r2
  pure (((i : ℚ) + f) * (10 : ℚ) ^ e, r3)

mutual

/-- A JSON value at the head of the input (leading whitespace already
skipped by the caller). -/
def parseJVal : Nat → List Char → Option (JsonVal × List Char)
  | 0, _ => none
  | fuel + 1, cs =>
    match cs with
    | [] => none
    | '{' :: r =>
      match skipJWs r with
      | '}' :: r2 => some (.obj [], r2)
      | r1 =>
        match parseJMembers fuel r1 with
        | some (kvs, rest) => some (.obj (buildDict kvs), rest)
        | none => none
    | '[' :: r =>
      match skipJWs r with
      | ']' :: r2 => some (.arr [], r2)
      | r1 =>
        match parseJElems fuel r1 with
        | some (xs, rest) => some (.arr xs, rest)
        | none => none
    | '"' :: r =>
      match parseJStr r with
      | some (s, rest) => some (.str (String.mk s), rest)
      | none => none
    | c :: r =>
      if ['t','r','u','e'].isPrefixOf cs then some (.bool true, cs.drop 4)
      else if ['f','a','l','s','e'].isPrefixOf cs then some (.bool false, cs.drop 5)
      else if ['n','u','l','l'].isPrefixOf cs then some (.null, cs.drop 4)
      else if c = '-' then
        match jsonNumTail r with
        | some (q, rest) => some (.num (-q), rest)
        | none => none
      else
        match jsonNumTail cs with
        | some (q, rest) => some (.num q, rest)
        | none => none

/-- Object members starting at the first key. -/
def parseJMembers : Nat → List Char → Option (List (String × JsonVal) × List Char)
  | 0, _ => none
  | fuel + 1, cs =>
    match cs with
    | '"' :: r => do
      let (k, r1) ← parseJStr r
      match skipJWs r1 with
      | ':' :: r2 => do
        let (v, r3) ← parseJVal fuel (skipJWs r2)
        match skipJWs r3 with
        | ',' :: r4 => do
          let (rest, r5) ← parseJMembers fuel (skipJWs r4)
          pure ((String.mk k, v) :: rest, r5)
        | '}' :: r4 => pure ([(String.mk k, v)], r4)
        | _ => none
      | _ => none
    | _ => none

/-- Array elements starting at the first element. -/
def parseJElems : Nat → List Char → Option (List JsonVal × List Char)
  | 0, _ => none
  | fuel + 1, cs => do
    let (v, r1) ← parseJVal fuel cs
    match skipJWs r1 with
    | ',' :: r2 => do
      let (vs, r3) ← parseJElems fuel (skipJWs r2)
      pure (v :: vs, r3)
    | ']' :: r2 => pure ([v], r2)
    | _ => none

end

/-- `json.loads`: parse one value, allow surrounding whitespace, require the
whole input to be consumed; `none` models a raised exception.  The fuel
`length + 1` is sufficient: every recursive descent consumes at least one
character. -/
def jsonParse (s : String) : Option JsonVal :=
  match parseJVal (s.data.length + 1) (skipJWs s.data) with
  | some (v, rest) => if (skipJWs rest).isEmpty then some v else none
  | none => none
/-! ## Python value rendering (used only inside prompt / report strings).

`pyFloatStr` renders a float-valued rational; Python prints binary floats
in shortest-roundtrip decimal, which coincides with this rendering for
integral values (`500.0`) — for other values the rendering is an exact
placeholder.  No theorem compares these strings except for substring
containment of the problem text, which they cannot affect. -/

def squote : String := String.mk [Char.ofNat 39]

def pyFloatStr (q : ℚ) : String :=
  if q.den = 1 then toString q.num ++ ".0"
  else toString q.num ++ "/" ++ toString q.den

/-- Python `repr` of a value produced by `json.loads` (dicts print with
single-quoted keys); string escaping inside `repr` is not reproduced. -/
def pyReprJson : JsonVal → String
  | .null => "None"
  | .bool true => "True"
  | .bool false => "False"
  | .num q => if q.den = 1 then toString q.num else pyFloatStr q
  | .str s => squote ++ s ++ squote
  | .arr xs => "[" ++ String.intercalate ", " (xs.attach.map fun x => pyReprJson x.1) ++ "]"
  | .obj kvs => "\x7b" ++
      String.intercalate ", "
        (kvs.attach.map fun kv => squote ++ kv.1.1 ++ squote ++ ": " ++ pyReprJson kv.1.2) ++
      "\x7d"
decreasing_by
  · have := List.sizeOf_lt_of_mem x.2
    simp only [JsonVal.arr.sizeOf_spec]
    omega
  · have h1 := List.sizeOf_lt_of_mem kv.2
    have h2 : sizeOf kv.1.2 < sizeOf kv.1 := by
      obtain ⟨k, v⟩ := kv.1
      simp only [Prod.mk.sizeOf_spec]
      omega
    simp only [JsonVal.obj.sizeOf_spec]
    omega

/-- Python `str()` applied in an f-string to a value from `json.loads`
(strings print bare, other values as their repr). -/
def pyStr : JsonVal → String
  | .str s => s
  | v => pyReprJson v

/-! ## Run state and environment -/

/-- One entry of `calculations`: either
`{"expression": ..., "result": ...}` or `{"expression": ..., "error": ...}`
(agent.py lines 168-170). -/
inductive CalcEntry where
  | ok (expression : String) (result : ℚ)
  | err (expression : String) (error : String)
deriving Repr, BEq, DecidableEq

/-- `final_estimate`: a number (last calculation result) or a string
fallback (agent.py lines 181-184, 200). -/
inductive FinalEstimate where
  | num (q : ℚ)
  | str (s : String)
deriving Repr, BEq, DecidableEq

/-- The shared state dict threaded through the LangGraph stages.  `problem`
is set at creation (`solve`, line 283); every other key is absent (`none`)
until its stage writes it. -/
structure RunState where
  problem : String
  analysis : Option JsonVal := none
  research : Option (List (String × String)) := none
  calculations : Option (List CalcEntry) := none
  validation : Option String := none
  final_estimate : Option FinalEstimate := none
  final_answer : Option String := none
deriving Repr

/-- Outcome of the `httpx` POST in `_call_http_tool`: either some raised
exception (transport failure, `raise_for_status` on a non-2xx reply, JSON
decoding of the body) with its message, or a decoded response body
`{success, result, error}` — the `.get` defaults of lines 51-56
(`success=True`, `result=""`, `error="Unknown error"`) are considered
already applied by the environment. -/
inductive HttpOutcome where
  | exn (msg : String)
  | json (success : Bool) (result : String) (error : String)

/-- External collaborators: the completion service and the HTTP tool
server, both total functions.  `httpPost endpoint arg` models
`client.post(f"{server_url}/tools/{endpoint}", json=data)` where `arg` is
the single value of the one-key payload dict. -/
structure Env where
  llm : String → String
  httpPost : String → String → HttpOutcome

/-- `GuesstimateSolver._call_http_tool` (agent.py lines 37-60): never
raises; failures come back as `"Error ..."` strings. -/
def callHttpTool (env : Env) (endpoint : String) (arg : String) : String :=
  match env.httpPost endpoint arg with
  | .exn m => "Error calling " ++ endpoint ++ ": " ++ m
  | .json true r _ => r
  | .json false _ e => "Error: " ++ e

/-- `GuesstimateSolver._web_search` (agent.py lines 226-229). -/
def webSearch (env : Env) (query : String) : String :=
  callHttpTool env "web-search" query

/-- Numeric extraction of `_calculate_expression` from the tool's response
text (agent.py lines 238-247): last match of `[-+]?\d*\.?\d+`, or a raised
`ValueError` when there is none. -/
def calcResultFromContent (content : String) : Except String ℚ :=
  match (findNumbers content.data).getLast? with
  | some m => .ok (parseDecQ m)
  | none => .error ("No numeric result in: " ++ content)

/-- `GuesstimateSolver._calculate_expression` (agent.py lines 231-251):
call the calculator tool, then extract the last number; the re-raise of
line 251 leaves the error unchanged. -/
def calculateExpression (env : Env) (expression : String) : Except String ℚ :=
  calcResultFromContent (callHttpTool env "calculator" expression)

/-! ## Prompts (exact f-string texts; blank lines inside the Python
triple-quoted strings carry eight spaces) -/

def analyzePromptText (problem : String) : String :=
  "\n        Analyze this guesstimate problem and break it down into components:\n" ++
  "        \n        Problem: " ++ problem ++ "\n        \n        Identify:\n" ++
  "        1. What needs to be estimated\n        2. Key factors and assumptions needed\n" ++
  "        3. What research might be helpful\n        4. Calculation approach\n" ++
  "        \n        Respond in JSON format with keys: target, factors, research_needs, approach\n        "

/-- Python repr of the `research` dict of strings. -/
def pyReprResearch (rs : List (String × String)) : String :=
  "\x7b" ++
  String.intercalate ", "
    (rs.map fun kv => squote ++ kv.1 ++ squote ++ ": " ++ squote ++ kv.2 ++ squote) ++
  "\x7d"

def calcPromptText (analysis : JsonVal) (research : List (String × String)) : String :=
  "\n        Based on this analysis and research, create calculation steps:\n        \n" ++
  "        Analysis: " ++ pyReprJson analysis ++ "\n" ++
  "        Research: " ++ pyReprResearch research ++ "\n        \n" ++
  "        Provide specific mathematical expressions to calculate the estimate.\n" ++
  "        Use realistic numbers based on the research.\n        "

/-- Python repr of one `calculations` entry (a dict). -/
def pyReprCalc : CalcEntry → String
  | .ok e r => "\x7b" ++ squote ++ "expression" ++ squote ++ ": " ++ squote ++ e ++ squote ++
      ", " ++ squote ++ "result" ++ squote ++ ": " ++ pyFloatStr r ++ "\x7d"
  | .err e m => "\x7b" ++ squote ++ "expression" ++ squote ++ ": " ++ squote ++ e ++ squote ++
      ", " ++ squote ++ "error" ++ squote ++ ": " ++ squote ++ m ++ squote ++ "\x7d"

def pyReprCalcs (cs : List CalcEntry) : String :=
  "[" ++ String.intercalate ", " (cs.map pyReprCalc) ++ "]"

/-- `str()` of the final-result value in an f-string. -/
def pyFE : FinalEstimate → String
  | .num q => pyFloatStr q
  | .str s => s

def validatePromptText (problem : String) (finalResult : FinalEstimate)
    (calculations : List CalcEntry) : String :=
  "\n        Validate this guesstimate result:\n        \n" ++
  "        Problem: " ++ problem ++ "\n" ++
  "        Final Result: " ++ pyFE finalResult ++ "\n" ++
  "        Calculations: " ++ pyReprCalcs calculations ++ "\n        \n" ++
  "        Is this result reasonable? Provide validation and any adjustments needed.\n        "
/-! ## Stage functions.

Python exceptions escaping a stage are modelled as `Except.error` with the
exception name; `state["k"]` on an absent key is a `KeyError`.  Cases that
cannot occur in any theorem below are still modelled where Python raises;
the one simplification is that a `research_needs` list containing
non-string elements is mapped to an error (Python would use the value as a
dict key), which no theorem relies on. -/

/-- The fallback analysis dict of agent.py lines 108-113. -/
def fallbackAnalysis : JsonVal :=
  .obj [("target", .str "Unknown estimation target"),
        ("factors", .arr [.str "Population", .str "Market size", .str "Usage patterns"]),
        ("research_needs", .arr [.str "Current market data", .str "Demographics"]),
        ("approach", .str "Top-down estimation")]

/-- The `try: json.loads ... except: fallback` of agent.py lines 105-113. -/
def analyzeValue (response : String) : JsonVal :=
  match jsonParse response with
  | some v => v
  | none => fallbackAnalysis

/-- `GuesstimateSolver._analyze_problem` (agent.py lines 83-117). -/
def analyzeProblem (env : Env) (st : RunState) : Except String RunState :=
  .ok { st with analysis := some (analyzeValue (env.llm (analyzePromptText st.problem))) }

/-- `state["analysis"].get("research_needs", [])` (agent.py line 122):
`.get` exists only on dicts. -/
def researchNeedsValue : JsonVal → Except String JsonVal
  | .obj kvs => .ok ((jlookup kvs "research_needs").getD (.arr []))
  | _ => .error "AttributeError"

/-- One research need used as a dict key and query string; not a string
is modelled as an error (see the section comment). -/
def needString : JsonVal → Except String String
  | .str s => .ok s
  | _ => .error "TypeError"

/-- `research_needs[:3]` followed by use of each need as a dict key and
query string (agent.py line 125).  Slicing a string yields its characters;
slicing non-sequences raises `TypeError`. -/
def researchNeedsList : JsonVal → Except String (List String)
  | .arr xs => (xs.take 3).mapM needString
  | .str s => .ok ((s.data.take 3).map fun c => String.mk [c])
  | _ => .error "TypeError"

/-- `GuesstimateSolver._research` (agent.py lines 119-135).  The
`except` of lines 130-131 is unreachable: `_web_search` delegates to
`_call_http_tool`, which catches every exception. -/
def research (env : Env) (st : RunState) : Except String RunState := do
  let a ← match st.analysis with
    | some a => Except.ok a
    | none => Except.error "KeyError"
  let needsVal ← researchNeedsValue a
  let needs ← researchNeedsList needsVal
  let results := needs.foldl (fun d n => dictInsert n (webSearch env n) d) []
  Except.ok { st with research := some results }

/-- The operator pre-filter of agent.py line 162:
`any(op in step for op in ['+', '-', '*', '/', 'sqrt'])`. -/
def calcLineFilter (step : String) : Bool :=
  containsChar '+' step.data || containsChar '-' step.data ||
  containsChar '*' step.data || containsChar '/' step.data ||
  containsTok ['s','q','r','t'] step.data

/-- Per-line body of the calculation loop (agent.py lines 161-170): filter,
extract, evaluate; a failure appends an error entry carrying the original
line, an extraction miss appends nothing. -/
def processCalcLine (env : Env) (step : String) : List CalcEntry :=
  if calcLineFilter step then
    match extractExpression step with
    | some expr =>
      match calculateExpression env expr with
      | .ok r => [.ok expr r]
      | .error e => [.err step e]
    | none => []
  else []

/-- `GuesstimateSolver._calculate` (agent.py lines 137-174). -/
def calculate (env : Env) (st : RunState) : Except String RunState := do
  let analysis ← match st.analysis with
    | some a => Except.ok a
    | none => Except.error "KeyError"
  let research ← match st.research with
    | some r => Except.ok r
    | none => Except.error "KeyError"
  let response := env.llm (calcPromptText analysis research)
  let calcs := ((pySplitNl response.data).map String.mk).flatMap (processCalcLine env)
  Except.ok { st with calculations := some calcs }

/-- `calculations[-1].get("result", "No result")` with the empty-list
fallback (agent.py lines 181-184). -/
def lastCalcResult (cs : List CalcEntry) : FinalEstimate :=
  match cs.getLast? with
  | none => .str "No calculations performed"
  | some (.ok _ r) => .num r
  | some (.err _ _) => .str "No result"

/-- `GuesstimateSolver._validate` (agent.py lines 176-202). -/
def validate (env : Env) (st : RunState) : Except String RunState := do
  let cs ← match st.calculations with
    | some cs => Except.ok cs
    | none => Except.error "KeyError"
  let finalResult := lastCalcResult cs
  let response := env.llm (validatePromptText st.problem finalResult cs)
  Except.ok { st with validation := some response, final_estimate := some finalResult }

/-- `state["analysis"]["target"]` (agent.py line 214): indexing a dict with
a string; other values raise. -/
def targetValue : JsonVal → Except String String
  | .obj kvs =>
    match jlookup kvs "target" with
    | some v => .ok (pyStr v)
    | none => .error "KeyError"
  | _ => .error "TypeError"

/-- One line of the key-calculations listing (agent.py line 217):
`f"- {calc['expression']} = {calc.get('result', 'Error')}"`. -/
def calcReportLine : CalcEntry → String
  | .ok e r => "- " ++ e ++ " = " ++ pyFloatStr r
  | .err e _ => "- " ++ e ++ " = Error"

/-- The final-answer f-string (agent.py lines 207-220). -/
def reportText (problem : String) (fe : FinalEstimate) (target : String)
    (cs : List CalcEntry) (validation : String) : String :=
  "\n        GUESSTIMATE SOLUTION\n        \n        Problem: " ++ problem ++
  "\n        \n        Final Estimate: " ++ pyFE fe ++
  "\n        \n        Analysis: " ++ target ++
  "\n        \n        Key Calculations:\n        " ++
  String.intercalate "\n" (cs.map calcReportLine) ++
  "\n        \n        Validation: " ++ validation ++ "\n        "

/-- `GuesstimateSolver._finalize` (agent.py lines 204-224); note
`state.get("calculations", [])` on line 217 never raises. -/
def finalize (env : Env) (st : RunState) : Except String RunState := do
  let fe ← match st.final_estimate with
    | some fe => Except.ok fe
    | none => Except.error "KeyError"
  let a ← match st.analysis with
    | some a => Except.ok a
    | none => Except.error "KeyError"
  let target ← targetValue a
  let v ← match st.validation with
    | some v => Except.ok v
    | none => Except.error "KeyError"
  Except.ok
    { st with
      final_answer := some (reportText st.problem fe target (st.calculations.getD []) v) }

/-- `GuesstimateSolver.solve` (agent.py lines 279-286): seed the state with
the problem, run the five stages of the compiled linear graph
(`analyze_problem → research → calculate → validate → finalize`, lines
67-79), return `result["final_answer"]`. -/
def solve (env : Env) (problem : String) : Except String String := do
  let s1 ← analyzeProblem env { problem := problem }
  let s2 ← research env s1
  let s3 ← calculate env s2
  let s4 ← validate env s3
  let s5 ← finalize env s4
  match s5.final_answer with
  | some a => Except.ok a
  | none => Except.error "KeyError"
/-! ## The calculator guard
(`calculate` in GuesstimateMCP `server.py` lines 14-19 and, identically,
`http_server.py` lines 24-29).  Only the character guard is embedded; the
subsequent `eval` of the already-accepted expression is outside the scope
of every claim. -/

/-- `all(c in set('0123456789+-*/.()% sqrt') for c in expression)`:
the guard passes exactly when every character belongs to the literal's
character set (note: the set contains the individual letters
`s`, `q`, `r`, `t` and only the space character as whitespace). -/
def calculateGuard (expression : String) : Bool :=
  expression.data.all fun c => "0123456789+-*/.()% sqrt".data.contains c

/-- Modelled from the spec: the language claimed for the guard — digits,
`+ - * / . ( ) %`, whitespace, and the literal token `sqrt`.  Letters are
admitted only as a whole `sqrt` token. -/
def specAllowedC9 : List Char → Bool
  | [] => true
  | 's' :: 'q' :: 'r' :: 't' :: rest => specAllowedC9 rest
  | c :: cs =>
    if c.isDigit || c = '+' || c = '-' || c = '*' || c = '/' || c = '.' ||
        c = '(' || c = ')' || c = '%' || isWsChar c then
      specAllowedC9 cs
    else false

/-! ## Helpers for stating the claims -/

/-- A concrete environment: empty completions, failing tool transport. -/
def env0 : Env := { llm := fun _ => "", httpPost := fun _ _ => .exn "unreachable" }

/-- Constructor test used to compare parsed analyses with the fallback. -/
def isObjB : JsonVal → Bool
  | .obj _ => true
  | _ => false

def isStrListB (xs : List JsonVal) : Bool :=
  xs.all fun x =>
    match x with
    | .str _ => true
    | _ => false

/-- Modelled from the spec: the analysis structure the spec expects stage 1
to produce — an object with string `target` and `approach` and
string-sequence `factors` and `research_needs`. -/
def isExpectedAnalysisShape : JsonVal → Bool
  | .obj kvs =>
    (match jlookup kvs "target" with
      | some (.str _) => true
      | _ => false) &&
    (match jlookup kvs "factors" with
      | some (.arr xs) => isStrListB xs
      | _ => false) &&
    (match jlookup kvs "research_needs" with
      | some (.arr xs) => isStrListB xs
      | _ => false) &&
    (match jlookup kvs "approach" with
      | some (.str _) => true
      | _ => false)
  | _ => false

/-- The analysis value stage 1 stores for a given problem and environment. -/
def analyzedValue (env : Env) (p : String) : JsonVal :=
  analyzeValue (env.llm (analyzePromptText p))

/-- Sufficient condition on the stored analysis for the downstream stages
to run without a Python exception: an object whose `target` key is present
and whose `research_needs` (when present) is a list of strings or a
string. -/
def goodAnalysisB : JsonVal → Bool
  | .obj kvs =>
    (jlookup kvs "target").isSome &&
    (match (jlookup kvs "research_needs").getD (.arr []) with
      | .arr xs => (xs.take 3).all fun x =>
          match x with
          | .str _ => true
          | _ => false
      | .str _ => true
      | _ => false)
  | _ => false

/-- Environment in which every HTTP call raises with a message containing
an HTTP status code. -/
def envC10w : Env := { llm := fun _ => "", httpPost := fun _ _ => .exn "Server error 500" }

/-- Success-shape test on a calculations entry. -/
def isOkEntryB : CalcEntry → Bool
  | .ok _ _ => true
  | .err _ _ => false

/-- Environment whose completion service always answers `"3"` — valid
JSON, but not an object. -/
def envJson3 : Env := { llm := fun _ => "3", httpPost := fun _ _ => .exn "unreachable" }

/-- Projection used to state counterexamples about `_validate`. -/
def finalEstimateOf : Except String RunState → Option FinalEstimate
  | .ok st => st.final_estimate
  | .error _ => none

/-! # Helper lemmas -/

/-- In every branch of `numTail`, the match is a nonempty prefix of the
input and the rest is the corresponding suffix. -/
theorem numTail_spec {cs m rest : List Char} (h : numTail cs = some (m, rest)) :
    m ≠ [] ∧ cs = m ++ rest := by
  have hsplit : cs.takeWhile Char.isDigit ++ cs.dropWhile Char.isDigit = cs :=
    List.takeWhile_append_dropWhile _ _
  simp only [numTail] at h
  split at h
  next r2 heq =>
    have hsplit2 : r2.takeWhile Char.isDigit ++ r2.dropWhile Char.isDigit = r2 :=
      List.takeWhile_append_dropWhile _ _
    split at h
    · split at h
      · exact absurd h (by simp)
      next hds =>
        simp only [Option.some.injEq, Prod.mk.injEq] at h
        obtain ⟨hm, hr⟩ := h
        refine ⟨?_, ?_⟩
        · intro hc; rw [hc] at hm; simp [hm] at hds
        · rw [← hm, ← hr]; exact hsplit.symm
    · simp only [Option.some.injEq, Prod.mk.injEq] at h
      obtain ⟨hm, hr⟩ := h
      refine ⟨?_, ?_⟩
      · intro hc; rw [← hm] at hc; simp at hc
      · conv_lhs => rw [← hsplit, heq, ← hsplit2]
        rw [← hm, ← hr]
        simp
  next =>
    split at h
    · exact absurd h (by simp)
    next hds =>
      simp only [Option.some.injEq, Prod.mk.injEq] at h
      obtain ⟨hm, hr⟩ := h
      refine ⟨?_, ?_⟩
      · intro hc; rw [hc] at hm; simp [hm] at hds
      · rw [← hm, ← hr]; exact hsplit.symm

/-- A successful `numAt` match is a nonempty prefix. -/
theorem numAt_spec {cs m rest : List Char} (h : numAt cs = some (m, rest)) :
    m ≠ [] ∧ cs = m ++ rest := by
  unfold numAt at h
  split at h
  next c r =>
    split at h
    · split at h
      next m' rest' heq =>
        simp only [Option.some.injEq, Prod.mk.injEq] at h
        obtain ⟨hm, hr⟩ := h
        obtain ⟨_, hpre⟩ := numTail_spec heq
        subst hr
        refine ⟨by simp [← hm], ?_⟩
        rw [← hm, hpre]
        simp
      · simp at h
    · exact numTail_spec h
  · simp at h

theorem numAt_rest_lt {cs m rest : List Char} (h : numAt cs = some (m, rest)) :
    rest.length < cs.length := by
  obtain ⟨hne, hpre⟩ := numAt_spec h
  rw [hpre]
  simp only [List.length_append]
  have : 0 < m.length := by
    cases m with
    | nil => exact absurd rfl hne
    | cons a l => simp
  omega

theorem dropWhile_length_le (p : Char → Bool) (l : List Char) :
    (l.dropWhile p).length ≤ l.length := by
  induction l with
  | nil => simp
  | cons a t ih =>
    simp only [List.dropWhile_cons]
    split
    · exact le_trans ih (by simp)
    · simp

/-! # Claims -/

/-- C1, counterexample.  A run whose `calculations` end in a failure entry
(after an earlier success with result `4`) gets `final_estimate`
`"No result"`: neither the last *successful* result (`4`) nor the
`"No calculations performed"` sentinel, although no successful entry is
last and the sentinel is what the claim requires when the error is the
only entry; the second part shows the all-failed case. -/
theorem validate_lastEntry_refutes_C1 :
    finalEstimateOf (validate env0
        { problem := "p",
          calculations := some [CalcEntry.ok "2 + 2" 4, CalcEntry.err "5/0" "division by zero"] }) =
      some (FinalEstimate.str "No result") ∧
    finalEstimateOf (validate env0
        { problem := "p", calculations := some [CalcEntry.err "5/0" "division by zero"] }) =
      some (FinalEstimate.str "No result") ∧
    FinalEstimate.str "No result" ≠ FinalEstimate.num 4 ∧
    FinalEstimate.str "No result" ≠ FinalEstimate.str "No calculations performed" := by
  refine ⟨rfl, rfl, by decide, by decide⟩

/-- C1 (amended): after the validate stage, `final_estimate` is determined
by the *last* `calculations` entry: the result of that entry when it is a
success entry, the string `"No result"` when it is a failure entry, and
`"No calculations performed"` when `calculations` is empty. -/
theorem validate_final_estimate_last_entry (env : Env) (st st' : RunState)
    (cs : List CalcEntry) (hcs : st.calculations = some cs)
    (h : validate env st = Except.ok st') :
    st'.final_estimate = some (lastCalcResult cs) ∧
    (cs = [] → lastCalcResult cs = .str "No calculations performed") ∧
    (∀ e r, cs.getLast? = some (.ok e r) → lastCalcResult cs = .num r) ∧
    (∀ e m, cs.getLast? = some (.err e m) → lastCalcResult cs = .str "No result") := by
  unfold validate at h
  rw [hcs] at h
  simp only [bind, Except.bind, pure, Except.pure, Except.ok.injEq] at h
  subst h
  refine ⟨rfl, ?_, ?_, ?_⟩
  · intro hnil; subst hnil; rfl
  · intro e r hg; unfold lastCalcResult; rw [hg]
  · intro e m hg; unfold lastCalcResult; rw [hg]

/-- C1 witness: instantiation at a concrete successful run. -/
theorem validate_final_estimate_last_entry_witness :
    ({ problem := "p", calculations := some [CalcEntry.ok "2 + 2" 4],
       validation := some "", final_estimate := some (FinalEstimate.num 4) } : RunState).final_estimate
      = some (FinalEstimate.num 4) :=
  (validate_final_estimate_last_entry env0
    { problem := "p", calculations := some [CalcEntry.ok "2 + 2" 4] }
    { problem := "p", calculations := some [CalcEntry.ok "2 + 2" 4],
      validation := some "", final_estimate := some (FinalEstimate.num 4) }
    [CalcEntry.ok "2 + 2" 4] rfl rfl).1

theorem parseDecQ_fourteen : parseDecQ ['1','4','.','0'] = 14 := by
  have h : parseDecQ ['1','4','.','0'] =
      ((14 : ℕ) : ℚ) + ((0 : ℕ) : ℚ) / (10 : ℚ) ^ (1 : ℕ) := rfl
  rw [h]; norm_num

/-- C4: the numeric result parsed from a calculator-tool response is the
last match of the signed decimal pattern; with no match the call fails with
a `"No numeric result"` error; on `"2 + 3 * 4 = 14.0"` the matches are
`2, 3, 4, 14.0` and the parsed result is `14.0`. -/
theorem calc_numeric_extraction_last_number (content : String) :
    (findNumbers content.data = [] →
      calcResultFromContent content = .error ("No numeric result in: " ++ content)) ∧
    (∀ m, (findNumbers content.data).getLast? = some m →
      calcResultFromContent content = .ok (parseDecQ m)) ∧
    (findNumbers "2 + 3 * 4 = 14.0".data).map String.mk = ["2", "3", "4", "14.0"] ∧
    calcResultFromContent "2 + 3 * 4 = 14.0" = .ok 14 := by
  refine ⟨?_, ?_, rfl, ?_⟩
  · intro h; unfold calcResultFromContent; rw [h]; rfl
  · intro m h; unfold calcResultFromContent; rw [h]
  · have h : calcResultFromContent "2 + 3 * 4 = 14.0" =
        Except.ok (parseDecQ ['1','4','.','0']) := rfl
    rw [h, parseDecQ_fourteen]

/-- C4 witness: a digit-free response text is reported as failed. -/
theorem calc_numeric_extraction_last_number_witness :
    calcResultFromContent "no numbers here." =
      .error ("No numeric result in: " ++ "no numbers here.") :=
  (calc_numeric_extraction_last_number "no numbers here.").1 rfl

/-- C9, counterexample.  `"1+t"` lies outside the claim's language (a lone
`t` is not a `sqrt` token) yet passes the guard, and `"1\t+ 2"` lies inside
it (tab is whitespace) yet the guard rejects it, because the source's
character set contains the letters `s q r t` individually and only the
space character. -/
theorem calculator_guard_refutes_C9 :
    calculateGuard "1+t" = true ∧ specAllowedC9 "1+t".data = false ∧
    calculateGuard "1\t+ 2" = false ∧ specAllowedC9 "1\t+ 2".data = true := by
  refine ⟨rfl, rfl, rfl, rfl⟩

/-- C9 (amended): the guard accepts exactly the strings whose characters
all lie in the set consisting of the digits, `+ - * / . ( ) %`, the space
character, and the letters `s q r t` — so stray `sqrt` letters pass the
guard outside any `sqrt` token and non-space whitespace is rejected; the
check runs before any evaluation. -/
theorem calculator_guard_charset (e : String) :
    calculateGuard e = true ↔
      ∀ c ∈ e.data,
        c ∈ ['0','1','2','3','4','5','6','7','8','9','+','-','*','/','.',
             '(',')','%',' ','s','q','r','t'] := by
  unfold calculateGuard
  rw [List.all_eq_true]
  have hlit : ("0123456789+-*/.()% sqrt".data) =
      ['0','1','2','3','4','5','6','7','8','9','+','-','*','/','.',
       '(',')','%',' ','s','q','r','t'] := rfl
  constructor
  · intro h c hc
    have h2 := h c hc
    rw [hlit] at h2
    simpa using h2
  · intro h c hc
    have h2 := h c hc
    rw [hlit]
    simpa using h2

/-- C9 witness: a well-formed expression passes the guard. -/
theorem calculator_guard_charset_witness :
    calculateGuard "sqrt(16) % 3" = true :=
  (calculator_guard_charset "sqrt(16) % 3").mpr (by decide)

theorem numAt_isSome_of_digit {c : Char} (cs : List Char) (h : c.isDigit = true) :
    numAt (c :: cs) ≠ none := by
  have h1 : c ≠ '+' := by intro he; rw [he] at h; exact absurd h (by decide)
  have h2 : c ≠ '-' := by intro he; rw [he] at h; exact absurd h (by decide)
  have hif : (decide (c = '+') || decide (c = '-')) = false := by simp [h1, h2]
  simp only [numAt, hif, Bool.false_eq_true, if_false]
  simp only [numTail, List.takeWhile_cons, h, if_true]
  split
  · split
    · split
      · simp_all
      · simp
    · simp
  · split
    · simp_all
    · simp

theorem findNumbersF_ne_nil (fuel : Nat) (cs : List Char) (hfuel : cs.length ≤ fuel)
    (h : ∃ c ∈ cs, c.isDigit = true) : findNumbersF fuel cs ≠ [] := by
  induction fuel generalizing cs with
  | zero =>
    have : cs = [] := by
      cases cs with
      | nil => rfl
      | cons a l => simp at hfuel
    subst this
    simp at h
  | succ fuel ih =>
    cases cs with
    | nil => simp at h
    | cons c cs' =>
      simp only [findNumbersF]
      cases hna : numAt (c :: cs') with
      | some p => simp
      | none =>
        have hc : c.isDigit = false := by
          cases hcd : c.isDigit with
          | false => rfl
          | true => exact absurd hna (numAt_isSome_of_digit cs' hcd)
        obtain ⟨d, hd, hdig⟩ := h
        rcases List.mem_cons.mp hd with rfl | hd'
        · rw [hc] at hdig; exact absurd hdig (by simp)
        · exact ih cs' (by simpa using Nat.le_of_succ_le_succ (by simpa using hfuel))
            ⟨d, hd', hdig⟩

theorem findNumbers_ne_nil_of_digit (cs : List Char)
    (h : ∃ c ∈ cs, c.isDigit = true) : findNumbers cs ≠ [] :=
  findNumbersF_ne_nil cs.length cs le_rfl h

/-- A tool response containing any digit yields a successful numeric
parse. -/
theorem calcResult_ok_of_digit (content : String)
    (h : ∃ c ∈ content.data, c.isDigit = true) :
    ∃ q, calcResultFromContent content = .ok q := by
  have hne := findNumbers_ne_nil_of_digit content.data h
  obtain ⟨m, hm⟩ := Option.isSome_iff_exists.mp (by
    rw [List.getLast?_isSome]; exact hne)
  exact ⟨parseDecQ m, by unfold calcResultFromContent; rw [hm]⟩

/-- A filtered line with a successful tool evaluation appends exactly one
success entry. -/
theorem processCalcLine_ok (env : Env) (step expr : String) (q : ℚ)
    (hf : calcLineFilter step = true) (he : extractExpression step = some expr)
    (hc : calculateExpression env expr = .ok q) :
    processCalcLine env step = [CalcEntry.ok expr q] := by
  unfold processCalcLine
  rw [hf, if_pos rfl, he]
  simp only [hc]

/-- C10: a failed HTTP tool call is returned to the caller as an error
*string* (never an exception), and whenever that error text contains a
decimal digit (e.g. an HTTP status code), the calculate stage parses the
last number out of the error message and records the attempt as a
*successful* calculation entry. -/
theorem http_tool_failure_parsed_as_number (env : Env) (expr step m e r : String) :
    (env.httpPost "calculator" expr = .exn m →
      callHttpTool env "calculator" expr = "Error calling calculator: " ++ m ∧
      ((∃ c ∈ m.data, c.isDigit = true) →
        ∃ q, calculateExpression env expr = .ok q ∧
          (calcLineFilter step = true → extractExpression step = some expr →
            processCalcLine env step = [CalcEntry.ok expr q]))) ∧
    (env.httpPost "calculator" expr = .json false r e →
      callHttpTool env "calculator" expr = "Error: " ++ e ∧
      ((∃ c ∈ e.data, c.isDigit = true) →
        ∃ q, calculateExpression env expr = .ok q ∧
          (calcLineFilter step = true → extractExpression step = some expr →
            processCalcLine env step = [CalcEntry.ok expr q]))) := by
  constructor
  · intro hpost
    have htool : callHttpTool env "calculator" expr = "Error calling calculator: " ++ m := by
      unfold callHttpTool; rw [hpost]; rfl
    refine ⟨htool, fun ⟨c, hcm, hdig⟩ => ?_⟩
    have hq := calcResult_ok_of_digit (callHttpTool env "calculator" expr)
      ⟨c, by rw [htool, String.data_append]; exact List.mem_append_right _ hcm, hdig⟩
    obtain ⟨q, hq⟩ := hq
    exact ⟨q, hq, fun hf he => processCalcLine_ok env step expr q hf he hq⟩
  · intro hpost
    have htool : callHttpTool env "calculator" expr = "Error: " ++ e := by
      unfold callHttpTool; rw [hpost]
    refine ⟨htool, fun ⟨c, hcm, hdig⟩ => ?_⟩
    have hq := calcResult_ok_of_digit (callHttpTool env "calculator" expr)
      ⟨c, by rw [htool, String.data_append]; exact List.mem_append_right _ hcm, hdig⟩
    obtain ⟨q, hq⟩ := hq
    exact ⟨q, hq, fun hf he => processCalcLine_ok env step expr q hf he hq⟩

/-- C10 witness: with a transport failure whose message is
`"Server error 500"`, the line `"2 + 2"` produces one entry and it is a
success entry. -/
theorem http_tool_failure_parsed_as_number_witness :
    (processCalcLine envC10w "2 + 2").map isOkEntryB = [true] := by
  obtain ⟨-, hrest⟩ :=
    (http_tool_failure_parsed_as_number envC10w "2 + 2" "2 + 2" "Server error 500" "" "").1 rfl
  obtain ⟨q, -, hp⟩ := hrest ⟨'5', by decide, by decide⟩
  rw [hp rfl rfl]
  rfl

/-- C2, counterexample.  On the line `"Total = 4 * sqrt(9)"` the extractor
returns `"sqrt(9)"` — the bare-sqrt fallback — and not the
`'='`-preceding form: the only run of class characters before the `=` sign
is the single space (the letters of `Total` other than `t` are outside the
class), which strips to a too-short candidate, so family 1 yields nothing,
and the bare-arithmetic family finds no `number op number` fragment
either. -/
theorem extractor_priority_refutes_C2 :
    extractExpression "Total = 4 * sqrt(9)" = some "sqrt(9)" ∧
    selectEqMatch (eqMatches "Total = 4 * sqrt(9)".data) = none ∧
    findNumOpNum "Total = 4 * sqrt(9)".data = none := by
  refine ⟨rfl, rfl, rfl⟩

/-- C2 (amended): the extractor tries the three pattern families in strict
priority order and returns the first family's match, where family 1
accepts a stripped `'='`-preceding candidate only when it is longer than
one character and contains `+`, `*`, `/` or the token `sqrt` (a `-` alone
does not qualify, so `"10 - 4 = 6"` is served by the bare-arithmetic
family); on `"Total = 4 * sqrt(9)"` families 1 and 2 produce nothing and
the result is the sqrt fallback `"sqrt(9)"`. -/
theorem extractor_priority_order (t : String) :
    (∀ e, selectEqMatch (eqMatches t.data) = some e →
      extractExpression t = some (String.mk e)) ∧
    (selectEqMatch (eqMatches t.data) = none →
      ∀ m, findNumOpNum t.data = some m →
        extractExpression t = some (String.mk (pyStrip m))) ∧
    (selectEqMatch (eqMatches t.data) = none → findNumOpNum t.data = none →
      extractExpression t = (findSqrtExpr t.data).map String.mk) ∧
    extractExpression "4 * sqrt(9) = 36" = some "4 * sqrt(9)" ∧
    (extractExpression "10 - 4 = 6" = some "10 - 4" ∧
      selectEqMatch (eqMatches "10 - 4 = 6".data) = none) ∧
    extractExpression "Total = 4 * sqrt(9)" = some "sqrt(9)" := by
  refine ⟨?_, ?_, ?_, rfl, ⟨rfl, rfl⟩, rfl⟩
  · intro e h; unfold extractExpression; rw [h]
  · intro h m hm; unfold extractExpression; rw [h, hm]
  · intro h hm
    unfold extractExpression
    rw [h, hm]
    cases hs : findSqrtExpr t.data <;> simp
  
/-- C2 witness: a clean `'='`-preceding line is served by family 1. -/
theorem extractor_priority_order_witness :
    extractExpression "9 + 1 = 10" = some "9 + 1" :=
  (extractor_priority_order "9 + 1 = 10").1 ['9',' ','+',' ','1'] rfl

/-- C5, counterexample.  The response `"[1, 2]"` parses as JSON, so the
stage stores the parsed list itself — not the fixed fallback — even though
a list is not the expected analysis structure (no `target`/`factors`/
`research_needs`/`approach` keys). -/
theorem analyze_wrong_shape_not_fallback_refutes_C5 :
    (jsonParse "[1, 2]").isSome = true ∧
    isExpectedAnalysisShape (analyzeValue "[1, 2]") = false ∧
    isObjB (analyzeValue "[1, 2]") = false ∧
    isObjB fallbackAnalysis = true ∧
    analyzeValue "[1, 2]" ≠ fallbackAnalysis := by
  refine ⟨rfl, rfl, rfl, rfl, ?_⟩
  intro h
  have h1 : isObjB (analyzeValue "[1, 2]") = false := rfl
  rw [h] at h1
  exact absurd h1 (by decide)

/-- C5 (amended): the analyze stage substitutes the fixed fallback exactly
when the response fails to parse as JSON (`json.loads` raises); any
successfully parsed value — whatever its shape — is stored as is.  The
stage itself never raises, and the fallback carries
`approach = "Top-down estimation"`. -/
theorem analyze_fallback_on_parse_failure (s : String) (env : Env) (st : RunState) :
    (jsonParse s = none → analyzeValue s = fallbackAnalysis) ∧
    (∀ v, jsonParse s = some v → analyzeValue s = v) ∧
    (∃ st', analyzeProblem env st = Except.ok st' ∧
      st'.analysis = some (analyzedValue env st.problem)) ∧
    analyzeValue "This is not JSON" = fallbackAnalysis ∧
    (∃ kvs, fallbackAnalysis = JsonVal.obj kvs ∧
      jlookup kvs "approach" = some (.str "Top-down estimation")) := by
  refine ⟨?_, ?_, ⟨_, rfl, rfl⟩, rfl, ⟨_, rfl, rfl⟩⟩
  · intro h; unfold analyzeValue; rw [h]
  · intro v h; unfold analyzeValue; rw [h]

/-- C5 witness: a non-JSON completion triggers the fallback. -/
theorem analyze_fallback_on_parse_failure_witness :
    analyzeValue "definitely not json" = fallbackAnalysis :=
  (analyze_fallback_on_parse_failure "definitely not json" env0 { problem := "p" }).1 rfl

/-- C6: per-line independence of the calculate stage.  The stage's
`calculations` list is the concatenation of per-line contributions (so a
failing line never affects later lines); a line with no extractable
expression contributes nothing; a line whose tool call succeeds contributes
exactly one success entry; a line whose evaluation fails contributes
exactly one failure entry carrying the original line; and once `analysis`
and `research` are present the stage always returns (never raises). -/
theorem calculate_per_line_isolation (env : Env) (st : RunState) (a : JsonVal)
    (r : List (String × String)) (step expr emsg : String) (q : ℚ)
    (xs ys : List String) :
    ((xs ++ ys).flatMap (processCalcLine env) =
      xs.flatMap (processCalcLine env) ++ ys.flatMap (processCalcLine env)) ∧
    (extractExpression step = none → processCalcLine env step = []) ∧
    (calcLineFilter step = false → processCalcLine env step = []) ∧
    (calcLineFilter step = true → extractExpression step = some expr →
      calculateExpression env expr = .ok q →
      processCalcLine env step = [CalcEntry.ok expr q]) ∧
    (calcLineFilter step = true → extractExpression step = some expr →
      calculateExpression env expr = .error emsg →
      processCalcLine env step = [CalcEntry.err step emsg]) ∧
    (st.analysis = some a → st.research = some r →
      ∃ st', calculate env st = Except.ok st' ∧
        st'.calculations =
          some (((pySplitNl (env.llm (calcPromptText a r)).data).map String.mk).flatMap
            (processCalcLine env))) := by
  refine ⟨?_, ?_, ?_, ?_, ?_, ?_⟩
  · simp [List.flatMap_append]
  · intro he
    by_cases hf : calcLineFilter step <;> simp [processCalcLine, hf, he]
  · intro hf
    simp [processCalcLine, hf]
  · intro hf he hc
    exact processCalcLine_ok env step expr q hf he hc
  · intro hf he hc
    unfold processCalcLine
    rw [hf, if_pos rfl, he]
    simp only [hc]
  · intro ha hr
    unfold calculate
    rw [ha, hr]
    exact ⟨_, rfl, rfl⟩

/-- C6 witness: with an unreachable tool server the line `"2 + 2"`
contributes exactly one failure entry carrying the original line. -/
theorem calculate_per_line_isolation_witness :
    processCalcLine env0 "2 + 2" =
      [CalcEntry.err "2 + 2" "No numeric result in: Error calling calculator: unreachable"] :=
  (calculate_per_line_isolation env0 { problem := "p" } JsonVal.null [] "2 + 2" "2 + 2"
      "No numeric result in: Error calling calculator: unreachable" 0 [] []).2.2.2.2.1
    rfl rfl rfl

theorem dictInsert_length_le {α : Type} (k : String) (v : α) (d : List (String × α)) :
    (dictInsert k v d).length ≤ d.length + 1 := by
  induction d with
  | nil => simp [dictInsert]
  | cons kv t ih =>
    obtain ⟨k', v'⟩ := kv
    simp only [dictInsert]
    split
    · simp
    · simp only [List.length_cons]; omega

theorem foldl_dictInsert_length {α : Type} (f : String → α) (needs : List String)
    (d : List (String × α)) :
    (needs.foldl (fun d n => dictInsert n (f n) d) d).length ≤ d.length + needs.length := by
  induction needs generalizing d with
  | nil => simp
  | cons n t ih =>
    simp only [List.foldl_cons]
    have h1 := ih (dictInsert n (f n) d)
    have h2 := dictInsert_length_le n (f n) d
    simp only [List.length_cons]
    omega

theorem mem_dictInsert {α : Type} (k : String) (v : α) (d : List (String × α)) :
    ∀ kv ∈ dictInsert k v d, kv ∈ d ∨ kv = (k, v) := by
  induction d with
  | nil => simp [dictInsert]
  | cons kv' t ih =>
    obtain ⟨k', v'⟩ := kv'
    intro kv h
    simp only [dictInsert] at h
    split at h
    · rcases List.mem_cons.mp h with rfl | ht
      · right; rfl
      · left; exact List.mem_cons_of_mem _ ht
    · rcases List.mem_cons.mp h with rfl | ht
      · left; exact List.mem_cons_self _ _
      · rcases ih kv ht with hd | he
        · left; exact List.mem_cons_of_mem _ hd
        · right; exact he

theorem mem_foldl_dictInsert {α : Type} (f : String → α) (l : List String)
    (d : List (String × α)) :
    ∀ kv ∈ l.foldl (fun d n => dictInsert n (f n) d) d,
      kv ∈ d ∨ ∃ n ∈ l, kv = (n, f n) := by
  induction l generalizing d with
  | nil => intro kv h; exact Or.inl h
  | cons n t ih =>
    intro kv h
    simp only [List.foldl_cons] at h
    rcases ih (dictInsert n (f n) d) kv h with hd | ⟨m, hm, rfl⟩
    · rcases mem_dictInsert n (f n) d kv hd with hd' | rfl
      · exact Or.inl hd'
      · exact Or.inr ⟨n, List.mem_cons_self _ _, rfl⟩
    · exact Or.inr ⟨m, List.mem_cons_of_mem _ hm, rfl⟩

theorem dictInsert_of_not_mem {α : Type} (k : String) (v : α) (d : List (String × α))
    (h : k ∉ d.map Prod.fst) :
    dictInsert k v d = d ++ [(k, v)] := by
  induction d with
  | nil => rfl
  | cons kv t ih =>
    obtain ⟨k', v'⟩ := kv
    simp only [List.map_cons, List.mem_cons] at h
    push_neg at h
    simp only [dictInsert]
    rw [if_neg (fun he => h.1 he.symm), ih h.2]
    simp

theorem foldl_dictInsert_nodup {α : Type} (f : String → α) (needs : List String)
    (d : List (String × α)) (hnd : needs.Nodup)
    (hdisj : ∀ n ∈ needs, n ∉ d.map Prod.fst) :
    needs.foldl (fun d n => dictInsert n (f n) d) d
      = d ++ needs.map (fun n => (n, f n)) := by
  induction needs generalizing d with
  | nil => simp
  | cons n t ih =>
    obtain ⟨hn, hndt⟩ := List.nodup_cons.mp hnd
    simp only [List.foldl_cons]
    rw [dictInsert_of_not_mem n (f n) d (hdisj n (List.mem_cons_self _ _))]
    rw [ih (d ++ [(n, f n)]) hndt ?_]
    · simp
    · intro m hm
      simp only [List.map_append, List.mem_append, List.map_cons, List.map_nil,
        List.mem_singleton]
      push_neg
      refine ⟨hdisj m (List.mem_cons_of_mem _ hm), ?_⟩
      intro hc
      exact hn (hc ▸ hm)

theorem mapM_needString (l : List String) :
    (l.map JsonVal.str).mapM needString = Except.ok l := by
  induction l with
  | nil => rfl
  | cons s t ih =>
    simp only [List.map_cons, List.mapM_cons, ih, needString]
    rfl

/-- C3: when the stored analysis carries a list of string research needs,
the research stage writes a mapping of at most 3 entries; every entry's key
is one of the first 3 needs and its value is exactly the web-search outcome
for that key (lookups are independent); when the first 3 needs are distinct
the mapping is exactly the first 3 needs in their original order; and an
HTTP failure for one need is stored as its error string. -/
theorem research_truncation_and_isolation (env : Env) (st : RunState)
    (kvs : List (String × JsonVal)) (needs : List String)
    (ha : st.analysis = some (.obj kvs))
    (hn : jlookup kvs "research_needs" = some (.arr (needs.map JsonVal.str))) :
    ∃ R, research env st = Except.ok { st with research := some R } ∧
      R.length ≤ 3 ∧
      (∀ kv ∈ R, kv.1 ∈ needs.take 3 ∧ kv.2 = webSearch env kv.1) ∧
      ((needs.take 3).Nodup →
        R = (needs.take 3).map fun n => (n, webSearch env n)) ∧
      (∀ n m, env.httpPost "web-search" n = .exn m →
        webSearch env n = "Error calling web-search: " ++ m) := by
  have hlist : researchNeedsList (.arr (needs.map JsonVal.str))
      = Except.ok (needs.take 3) := by
    show ((needs.map JsonVal.str).take 3).mapM needString = Except.ok (needs.take 3)
    rw [← List.map_take, mapM_needString]
  refine ⟨(needs.take 3).foldl (fun d n => dictInsert n (webSearch env n) d) [], ?_, ?_, ?_, ?_, ?_⟩
  · unfold research
    rw [ha]
    simp only [researchNeedsValue, bind, Except.bind, hn, Option.getD_some, hlist]
  · have h := foldl_dictInsert_length (webSearch env) (needs.take 3) []
    have h2 : (needs.take 3).length ≤ 3 := by
      simpa using List.length_take_le 3 needs
    simpa using le_trans h (by simpa using h2)
  · intro kv hkv
    rcases mem_foldl_dictInsert (webSearch env) (needs.take 3) [] kv hkv with hd | ⟨n, hnn, rfl⟩
    · simp at hd
    · exact ⟨hnn, rfl⟩
  · intro hnd
    rw [foldl_dictInsert_nodup (webSearch env) (needs.take 3) [] hnd (by simp)]
    simp
  · intro n m hm
    unfold webSearch callHttpTool
    rw [hm]
    rfl

/-- C3 witness: with four proposed needs the research mapping is the first
three in order, each carrying the (failed) search outcome. -/
theorem research_truncation_and_isolation_witness :
    research env0
      { problem := "p",
        analysis := some (.obj [("research_needs",
          .arr [.str "a", .str "b", .str "c", .str "d"])]) }
      = Except.ok
        { problem := "p",
          analysis := some (.obj [("research_needs",
            .arr [.str "a", .str "b", .str "c", .str "d"])]),
          research := some [("a", "Error calling web-search: unreachable"),
                            ("b", "Error calling web-search: unreachable"),
                            ("c", "Error calling web-search: unreachable")] } := by
  obtain ⟨R, hR, -, -, hnd, -⟩ := research_truncation_and_isolation env0
    { problem := "p",
      analysis := some (.obj [("research_needs",
        .arr [.str "a", .str "b", .str "c", .str "d"])]) }
    [("research_needs", .arr [.str "a", .str "b", .str "c", .str "d"])]
    ["a", "b", "c", "d"] rfl rfl
  rw [hnd (by decide)] at hR
  exact hR

/-- C7: each stage only adds its own fields.  Whenever a stage returns a
state, the problem and every field owned by another stage are unchanged:
analyze writes only `analysis`, research only `research`, calculate only
`calculations`, validate only `validation` and `final_estimate`, finalize
only `final_answer`; `problem` is written by none of them (it is set once
by `solve` at creation), so the state grows monotonically. -/
theorem stages_preserve_earlier_fields (env : Env) (st st' : RunState) :
    (analyzeProblem env st = Except.ok st' →
      st'.problem = st.problem ∧ st'.research = st.research ∧
      st'.calculations = st.calculations ∧ st'.validation = st.validation ∧
      st'.final_estimate = st.final_estimate ∧ st'.final_answer = st.final_answer) ∧
    (research env st = Except.ok st' →
      st'.problem = st.problem ∧ st'.analysis = st.analysis ∧
      st'.calculations = st.calculations ∧ st'.validation = st.validation ∧
      st'.final_estimate = st.final_estimate ∧ st'.final_answer = st.final_answer) ∧
    (calculate env st = Except.ok st' →
      st'.problem = st.problem ∧ st'.analysis = st.analysis ∧
      st'.research = st.research ∧ st'.validation = st.validation ∧
      st'.final_estimate = st.final_estimate ∧ st'.final_answer = st.final_answer) ∧
    (validate env st = Except.ok st' →
      st'.problem = st.problem ∧ st'.analysis = st.analysis ∧
      st'.research = st.research ∧ st'.calculations = st.calculations ∧
      st'.final_answer = st.final_answer) ∧
    (finalize env st = Except.ok st' →
      st'.problem = st.problem ∧ st'.analysis = st.analysis ∧
      st'.research = st.research ∧ st'.calculations = st.calculations ∧
      st'.validation = st.validation ∧ st'.final_estimate = st.final_estimate) := by
  refine ⟨?_, ?_, ?_, ?_, ?_⟩
  · intro h
    unfold analyzeProblem at h
    simp only [Except.ok.injEq] at h
    subst h
    simp
  · intro h
    unfold research at h
    simp only [bind, Except.bind] at h
    repeat' split at h
    all_goals try simp only [Except.ok.injEq] at h
    all_goals try subst h
    all_goals simp_all
  · intro h
    unfold calculate at h
    simp only [bind, Except.bind] at h
    repeat' split at h
    all_goals try simp only [Except.ok.injEq] at h
    all_goals try subst h
    all_goals simp_all
  · intro h
    unfold validate at h
    simp only [bind, Except.bind] at h
    repeat' split at h
    all_goals try simp only [Except.ok.injEq] at h
    all_goals try subst h
    all_goals simp_all
  · intro h
    unfold finalize at h
    simp only [bind, Except.bind] at h
    repeat' split at h
    all_goals try simp only [Except.ok.injEq] at h
    all_goals try subst h
    all_goals simp_all

/-- C7 witness: the analyze stage on a fresh state leaves `problem`
untouched. -/
theorem stages_preserve_earlier_fields_witness :
    ({ problem := "p", analysis := some fallbackAnalysis } : RunState).problem = "p" :=
  ((stages_preserve_earlier_fields env0 { problem := "p" }
    { problem := "p", analysis := some fallbackAnalysis }).1 rfl).1

theorem except_bind_ok {α β : Type} (x : α) (f : α → Except String β) :
    (Except.ok x >>= f) = f x := rfl

theorem mapM_needString_of_all_str (l : List JsonVal)
    (h : (l.all fun x =>
      match x with
      | JsonVal.str _ => true
      | _ => false) = true) :
    ∃ ss, l.mapM needString = Except.ok ss := by
  induction l with
  | nil => exact ⟨[], rfl⟩
  | cons x t ih =>
    simp only [List.all_cons, Bool.and_eq_true] at h
    obtain ⟨hx, ht⟩ := h
    obtain ⟨ss, hss⟩ := ih ht
    cases x with
    | str s =>
      refine ⟨s :: ss, ?_⟩
      rw [List.mapM_cons]
      rw [show needString (JsonVal.str s) = Except.ok s from rfl]
      rw [except_bind_ok, hss, except_bind_ok]
      rfl
    | null => simp at hx
    | bool b => simp at hx
    | num q => simp at hx
    | arr xs => simp at hx
    | obj kvs => simp at hx

theorem research_ok (env : Env) (st : RunState) (kvs : List (String × JsonVal))
    (needs : List String) (hA : st.analysis = some (.obj kvs))
    (hN : researchNeedsList ((jlookup kvs "research_needs").getD (.arr []))
      = Except.ok needs) :
    research env st =
      Except.ok
        { st with
          research := some (needs.foldl (fun d n => dictInsert n (webSearch env n) d) []) } := by
  unfold research
  rw [hA]
  simp only [bind, Except.bind, researchNeedsValue, hN]

theorem calculate_ok (env : Env) (st : RunState) (a : JsonVal)
    (r : List (String × String)) (hA : st.analysis = some a)
    (hR : st.research = some r) :
    calculate env st =
      Except.ok
        { st with
          calculations := some (((pySplitNl (env.llm (calcPromptText a r)).data).map
            String.mk).flatMap (processCalcLine env)) } := by
  unfold calculate
  rw [hA, hR]
  rfl

theorem validate_ok (env : Env) (st : RunState) (cs : List CalcEntry)
    (hC : st.calculations = some cs) :
    validate env st = Except.ok { st with
      validation := some (env.llm (validatePromptText st.problem (lastCalcResult cs) cs)),
      final_estimate := some (lastCalcResult cs) } := by
  unfold validate
  rw [hC]
  rfl

theorem finalize_ok (env : Env) (st : RunState) (fe : FinalEstimate) (a : JsonVal)
    (t v : String) (hF : st.final_estimate = some fe) (hA : st.analysis = some a)
    (hT : targetValue a = Except.ok t) (hV : st.validation = some v) :
    finalize env st =
      Except.ok
        { st with
          final_answer := some (reportText st.problem fe t (st.calculations.getD []) v) } := by
  unfold finalize
  simp only [hF, hA, hV, hT, bind, Except.bind]

/-- Splitting the final report around the verbatim problem text. -/
theorem reportText_contains (p : String) (fe : FinalEstimate) (t : String)
    (cs : List CalcEntry) (v : String) :
    reportText p fe t cs v =
      "\n        GUESSTIMATE SOLUTION\n        \n        Problem: " ++ p ++
      ("\n        \n        Final Estimate: " ++ pyFE fe ++
       "\n        \n        Analysis: " ++ t ++
       "\n        \n        Key Calculations:\n        " ++
       String.intercalate "\n" (cs.map calcReportLine) ++
       "\n        \n        Validation: " ++ v ++ "\n        ") := by
  unfold reportText
  simp [String.append_assoc]

/-- C8, counterexample.  When the completion service answers `"3"` for the
analyze prompt — valid JSON but not a dict — the research stage's
`state["analysis"].get(...)` raises `AttributeError` and `solve` aborts
without returning any report string. -/
theorem solve_aborts_refutes_C8 :
    (jsonParse "3").isSome = true ∧
    solve envJson3 "How many?" = Except.error "AttributeError" := by
  exact ⟨rfl, rfl⟩

/-- C8 (amended): for every problem `p` and every environment in which the
analyze-stage response either fails to parse as JSON (yielding the
fallback) or parses to an object that has a `target` key and whose
`research_needs` value, when present, is a string or a list of strings,
`solve` terminates with a report string that contains `p` verbatim; on
other analyze responses the run can abort with a Python exception. -/
theorem solve_returns_problem_verbatim (env : Env) (p : String)
    (h : goodAnalysisB (analyzedValue env p) = true) :
    ∃ l r, solve env p = Except.ok (l ++ p ++ r) := by
  obtain ⟨kvs, hkvs⟩ : ∃ kvs, analyzedValue env p = JsonVal.obj kvs := by
    cases hA : analyzedValue env p with
    | obj kvs => exact ⟨kvs, rfl⟩
    | null =>
      rw [hA] at h
      rw [show goodAnalysisB JsonVal.null = false from rfl] at h
      simp at h
    | bool b =>
      rw [hA] at h
      rw [show goodAnalysisB (JsonVal.bool b) = false from rfl] at h
      simp at h
    | num q =>
      rw [hA] at h
      rw [show goodAnalysisB (JsonVal.num q) = false from rfl] at h
      simp at h
    | str s =>
      rw [hA] at h
      rw [show goodAnalysisB (JsonVal.str s) = false from rfl] at h
      simp at h
    | arr xs =>
      rw [hA] at h
      rw [show goodAnalysisB (JsonVal.arr xs) = false from rfl] at h
      simp at h
  rw [hkvs] at h
  have h2 : ((jlookup kvs "target").isSome &&
      (match (jlookup kvs "research_needs").getD (.arr []) with
        | JsonVal.arr xs => (xs.take 3).all fun x =>
            match x with
            | JsonVal.str _ => true
            | _ => false
        | JsonVal.str _ => true
        | _ => false)) = true := h
  rw [Bool.and_eq_true] at h2
  obtain ⟨ht, hrn⟩ := h2
  obtain ⟨tv, htv⟩ := Option.isSome_iff_exists.mp ht
  have hT : targetValue (JsonVal.obj kvs) = Except.ok (pyStr tv) := by
    show (match jlookup kvs "target" with
      | some v => Except.ok (pyStr v)
      | none => Except.error "KeyError") = Except.ok (pyStr tv)
    rw [htv]
  obtain ⟨needs, hN⟩ :
      ∃ needs, researchNeedsList ((jlookup kvs "research_needs").getD (.arr []))
        = Except.ok needs := by
    cases hv : (jlookup kvs "research_needs").getD (.arr []) with
    | arr xs =>
      rw [hv] at hrn
      have hall : ((xs.take 3).all fun x =>
          match x with
          | JsonVal.str _ => true
          | _ => false) = true := hrn
      obtain ⟨ss, hss⟩ := mapM_needString_of_all_str (xs.take 3) hall
      exact ⟨ss, hss⟩
    | str s => exact ⟨_, rfl⟩
    | null => rw [hv] at hrn; simp at hrn
    | bool b => rw [hv] at hrn; simp at hrn
    | num q => rw [hv] at hrn; simp at hrn
    | obj kvs2 => rw [hv] at hrn; simp at hrn
  have e1 : analyzeProblem env { problem := p } =
      Except.ok { problem := p, analysis := some (JsonVal.obj kvs) } := by
    have e1a : analyzeProblem env { problem := p } =
        Except.ok { problem := p, analysis := some (analyzedValue env p) } := rfl
    rw [e1a, hkvs]
  have e2 := research_ok env { problem := p, analysis := some (JsonVal.obj kvs) }
    kvs needs rfl hN
  have e3 := calculate_ok env
    { problem := p, analysis := some (JsonVal.obj kvs), research := some (needs.foldl (fun d n => dictInsert n (webSearch env n) d) ([] : List (String × String))) }
    (JsonVal.obj kvs) (needs.foldl (fun d n => dictInsert n (webSearch env n) d) ([] : List (String × String))) rfl rfl
  have e4 := validate_ok env
    { problem := p, analysis := some (JsonVal.obj kvs), research := some (needs.foldl (fun d n => dictInsert n (webSearch env n) d) ([] : List (String × String))),
      calculations := some (((pySplitNl (env.llm (calcPromptText (JsonVal.obj kvs) (needs.foldl (fun d n => dictInsert n (webSearch env n) d) ([] : List (String × String))))).data).map String.mk).flatMap (processCalcLine env)) }
    (((pySplitNl (env.llm (calcPromptText (JsonVal.obj kvs) (needs.foldl (fun d n => dictInsert n (webSearch env n) d) ([] : List (String × String))))).data).map String.mk).flatMap (processCalcLine env)) rfl
  have e5 := finalize_ok env
    { problem := p, analysis := some (JsonVal.obj kvs), research := some (needs.foldl (fun d n => dictInsert n (webSearch env n) d) ([] : List (String × String))),
      calculations := some (((pySplitNl (env.llm (calcPromptText (JsonVal.obj kvs) (needs.foldl (fun d n => dictInsert n (webSearch env n) d) ([] : List (String × String))))).data).map String.mk).flatMap (processCalcLine env)),
      validation := some (env.llm (validatePromptText p (lastCalcResult (((pySplitNl (env.llm (calcPromptText (JsonVal.obj kvs) (needs.foldl (fun d n => dictInsert n (webSearch env n) d) ([] : List (String × String))))).data).map String.mk).flatMap (processCalcLine env))) (((pySplitNl (env.llm (calcPromptText (JsonVal.obj kvs) (needs.foldl (fun d n => dictInsert n (webSearch env n) d) ([] : List (String × String))))).data).map String.mk).flatMap (processCalcLine env)))),
      final_estimate := some (lastCalcResult (((pySplitNl (env.llm (calcPromptText (JsonVal.obj kvs) (needs.foldl (fun d n => dictInsert n (webSearch env n) d) ([] : List (String × String))))).data).map String.mk).flatMap (processCalcLine env))) }
    (lastCalcResult (((pySplitNl (env.llm (calcPromptText (JsonVal.obj kvs) (needs.foldl (fun d n => dictInsert n (webSearch env n) d) ([] : List (String × String))))).data).map String.mk).flatMap (processCalcLine env))) (JsonVal.obj kvs) (pyStr tv) (env.llm (validatePromptText p (lastCalcResult (((pySplitNl (env.llm (calcPromptText (JsonVal.obj kvs) (needs.foldl (fun d n => dictInsert n (webSearch env n) d) ([] : List (String × String))))).data).map String.mk).flatMap (processCalcLine env))) (((pySplitNl (env.llm (calcPromptText (JsonVal.obj kvs) (needs.foldl (fun d n => dictInsert n (webSearch env n) d) ([] : List (String × String))))).data).map String.mk).flatMap (processCalcLine env)))) rfl rfl hT rfl
  have hsolve : solve env p =
      Except.ok (reportText p (lastCalcResult (((pySplitNl (env.llm (calcPromptText (JsonVal.obj kvs) (needs.foldl (fun d n => dictInsert n (webSearch env n) d) ([] : List (String × String))))).data).map String.mk).flatMap (processCalcLine env))) (pyStr tv) (((pySplitNl (env.llm (calcPromptText (JsonVal.obj kvs) (needs.foldl (fun d n => dictInsert n (webSearch env n) d) ([] : List (String × String))))).data).map String.mk).flatMap (processCalcLine env)) (env.llm (validatePromptText p (lastCalcResult (((pySplitNl (env.llm (calcPromptText (JsonVal.obj kvs) (needs.foldl (fun d n => dictInsert n (webSearch env n) d) ([] : List (String × String))))).data).map String.mk).flatMap (processCalcLine env))) (((pySplitNl (env.llm (calcPromptText (JsonVal.obj kvs) (needs.foldl (fun d n => dictInsert n (webSearch env n) d) ([] : List (String × String))))).data).map String.mk).flatMap (processCalcLine env))))) := by
    unfold solve
    simp only [e1, except_bind_ok, e2, e3, e4, e5]
    rfl
  rw [reportText_contains p (lastCalcResult (((pySplitNl (env.llm (calcPromptText (JsonVal.obj kvs) (needs.foldl (fun d n => dictInsert n (webSearch env n) d) ([] : List (String × String))))).data).map String.mk).flatMap (processCalcLine env))) (pyStr tv) (((pySplitNl (env.llm (calcPromptText (JsonVal.obj kvs) (needs.foldl (fun d n => dictInsert n (webSearch env n) d) ([] : List (String × String))))).data).map String.mk).flatMap (processCalcLine env)) (env.llm (validatePromptText p (lastCalcResult (((pySplitNl (env.llm (calcPromptText (JsonVal.obj kvs) (needs.foldl (fun d n => dictInsert n (webSearch env n) d) ([] : List (String × String))))).data).map String.mk).flatMap (processCalcLine env))) (((pySplitNl (env.llm (calcPromptText (JsonVal.obj kvs) (needs.foldl (fun d n => dictInsert n (webSearch env n) d) ([] : List (String × String))))).data).map String.mk).flatMap (processCalcLine env))))] at hsolve
  exact ⟨_, _, hsolve⟩

/-- C8 witness: with a non-JSON completion (fallback analysis) and a
failing tool transport, the report still contains the question verbatim. -/
theorem solve_returns_problem_verbatim_witness :
    ∃ l r, solve env0 "How many piano tuners work in Chicago?"
      = Except.ok (l ++ "How many piano tuners work in Chicago?" ++ r) :=
  solve_returns_problem_verbatim env0 "How many piano tuners work in Chicago?" rfl
